import Mathlib

/-!
Shallow embedding of the outfit recommendation pipeline
(`app/ai/recommendations.py`) and the color harmony subsystem
(`app/ai/color_analysis.py`).

Conventions of the embedding:
* a Python `None`-able attribute becomes an `Option`;
* Python floats used for scores become `ℚ` (the score arithmetic is exact
  decimal arithmetic in the source);
* the per-request random shuffles of the generation loop become an explicit
  list of already-shuffled item lists supplied by the caller;
* a candidate dictionary that may lack a well-formed `items` entry carries
  `Option (List ItemView)`, `none` standing for the malformed case.
-/

namespace StyleRec

/-- Python's `str.lower()`, modelled character-wise (all strings the tables
hold are ASCII). -/
def str_lower (s : String) : String := ⟨s.data.map Char.toLower⟩

/-- `ClothingItem` as read by the pipeline: `item_id`, nullable `category`
and `color` columns, and the `formality_level` entry of the item metadata
(`none` when the metadata is absent or has no such key). -/
structure ClothingItem where
  item_id : String
  category : Option String
  color : Option String
  formality_level : Option Int
  deriving DecidableEq, Repr

/-- The formality the filters use: `metadata.get('formality_level', 2)`,
defaulting to 2 whenever the metadata carries no value. -/
def formality_of (item : ClothingItem) : Int :=
  item.formality_level.getD 2

/-- One entry of `self.occasion_requirements`. -/
structure OccasionReq where
  formality_min : Int
  colors : List String
  deriving DecidableEq, Repr

/-- `self.occasion_requirements` from `OutfitRecommendationEngine.__init__`. -/
def occasion_requirements (occasion : String) : Option OccasionReq :=
  if occasion = "work" then some ⟨3, ["navy", "black", "gray", "white"]⟩
  else if occasion = "casual" then some ⟨1, ["blue", "green", "red", "yellow"]⟩
  else if occasion = "date" then some ⟨2, ["black", "red", "navy", "white"]⟩
  else if occasion = "party" then some ⟨3, ["black", "red", "gold", "silver"]⟩
  else if occasion = "workout" then some ⟨1, ["black", "gray", "blue", "green"]⟩
  else if occasion = "formal" then some ⟨4, ["black", "navy", "gray", "white"]⟩
  else none

/-- One entry of `self.mood_style_mapping`. -/
structure MoodStyle where
  colors : List String
  formality : Int
  deriving DecidableEq, Repr

/-- `self.mood_style_mapping` from `OutfitRecommendationEngine.__init__`. -/
def mood_style_mapping (mood : String) : Option MoodStyle :=
  if mood = "confident" then some ⟨["red", "black", "navy"], 3⟩
  else if mood = "relaxed" then some ⟨["blue", "green", "gray"], 1⟩
  else if mood = "creative" then some ⟨["purple", "orange", "yellow"], 2⟩
  else if mood = "professional" then some ⟨["black", "navy", "gray"], 4⟩
  else if mood = "romantic" then some ⟨["pink", "red", "white"], 2⟩
  else if mood = "adventurous" then some ⟨["green", "brown", "orange"], 1⟩
  else none

/-- One entry of `self.weather_adjustments`; each field models the presence
or absence of the like-named dictionary key. -/
structure WeatherAdjustment where
  avoid_categories : Option (List String)
  prefer_categories : Option (List String)
  avoid : Option (List String)
  prefer : Option (List String)
  neutral : Bool
  deriving DecidableEq, Repr

/-- `self.weather_adjustments` from `OutfitRecommendationEngine.__init__`.
Note the asymmetry of the table itself: `hot` has `avoid_categories` and
`prefer`, while `cold` and `rainy` have `prefer_categories` and `avoid`. -/
def weather_adjustments (condition : String) : Option WeatherAdjustment :=
  if condition = "hot" then
    some ⟨some ["coat", "sweater"], none, none, some ["shorts", "tank_top"], false⟩
  else if condition = "cold" then
    some ⟨none, some ["coat", "sweater"], some ["shorts", "tank_top"], none, false⟩
  else if condition = "rainy" then
    some ⟨none, some ["jacket", "boots"], some ["white", "suede"], none, false⟩
  else if condition = "mild" then
    some ⟨none, none, none, none, true⟩
  else none

/-- The per-item predicate of `_filter_by_occasion`: formality at least the
occasion minimum, or a non-null color in the occasion's color list. -/
def occasion_keep (req : OccasionReq) (item : ClothingItem) : Bool :=
  req.formality_min ≤ formality_of item
    || (match item.color with
        | some c => req.colors.contains (str_lower c)
        | none => false)

/-- `_filter_by_occasion`: unknown occasion passes every item through;
otherwise keep the matching items, falling back to the whole input when the
match is empty (`return filtered if filtered else items`). -/
def filter_by_occasion (items : List ClothingItem) (occasion : String) :
    List ClothingItem :=
  match occasion_requirements occasion with
  | none => items
  | some req =>
    let filtered := items.filter (occasion_keep req)
    if filtered.isEmpty then items else filtered

/-- The per-item predicate of `_filter_by_mood`: color in the mood's color
list, or formality within 1 of the mood formality. -/
def mood_keep (ms : MoodStyle) (item : ClothingItem) : Bool :=
  (match item.color with
    | some c => ms.colors.contains (str_lower c)
    | none => false)
    || (formality_of item - ms.formality).natAbs ≤ 1

/-- `_filter_by_mood`, with the same fail-soft shape as the occasion
filter. -/
def filter_by_mood (items : List ClothingItem) (mood : String) :
    List ClothingItem :=
  match mood_style_mapping mood with
  | none => items
  | some ms =>
    let filtered := items.filter (mood_keep ms)
    if filtered.isEmpty then items else filtered

/-- `weather.get('condition', 'mild').lower() if weather else 'mild'`. -/
def weather_condition (weather : Option String) : String :=
  match weather with
  | none => "mild"
  | some c => str_lower c

/-- The loop body of `_filter_by_weather`: skip items whose lowered category
is in `avoid_categories` or whose lowered color is in `avoid`; insert items
whose lowered category is in `prefer_categories` at the front; append the
rest. -/
def weather_filter_step (adj : WeatherAdjustment) (acc : List ClothingItem)
    (item : ClothingItem) : List ClothingItem :=
  if (match adj.avoid_categories, item.category with
      | some avoidCats, some c => avoidCats.contains (str_lower c)
      | _, _ => false) then acc
  else if (match adj.avoid, item.color with
      | some avoidColors, some c => avoidColors.contains (str_lower c)
      | _, _ => false) then acc
  else if (match adj.prefer_categories, item.category with
      | some prefCats, some c => prefCats.contains (str_lower c)
      | _, _ => false) then item :: acc
  else acc ++ [item]

/-- `_filter_by_weather`: unknown condition and the `neutral` entry pass
everything through; otherwise run the avoid/put-preferred-first loop and
fall back to the input when it empties the list. -/
def filter_by_weather (items : List ClothingItem) (weather : Option String) :
    List ClothingItem :=
  match weather_adjustments (weather_condition weather) with
  | none => items
  | some adj =>
    if adj.neutral then items
    else
      let filtered := items.foldl (weather_filter_step adj) []
      if filtered.isEmpty then items else filtered

/-! Color harmony subsystem (`ColorAnalyzer` in `app/ai/color_analysis.py`). -/

/-- `self.color_wheel` as the dictionary it is: color name to
`(hue, saturation, value)`. -/
def color_wheel_table : List (String × (Nat × Nat × Nat)) :=
  [("red", (0, 100, 100)), ("orange", (30, 100, 100)),
   ("yellow", (60, 100, 100)), ("green", (120, 100, 100)),
   ("blue", (240, 100, 100)), ("purple", (270, 100, 100)),
   ("pink", (330, 100, 100)), ("brown", (30, 100, 30)),
   ("black", (0, 0, 0)), ("white", (0, 0, 100)), ("gray", (0, 0, 50)),
   ("navy", (240, 100, 25)), ("beige", (30, 30, 80))]

/-- Dictionary access into `self.color_wheel`. -/
def color_wheel (color : String) : Option (Nat × Nat × Nat) :=
  color_wheel_table.lookup color

/-- The hue-difference folding of `_calculate_color_pair_harmony`:
`hue_diff = abs(hue1 - hue2); if hue_diff > 180: hue_diff = 360 - hue_diff`. -/
def circular_hue_distance (hue1 hue2 : Nat) : Int :=
  let hue_diff : Int := ((hue1 : Int) - (hue2 : Int)).natAbs
  if 180 < hue_diff then 360 - hue_diff else hue_diff

/-- `_calculate_color_pair_harmony`: score the two colors' circular hue
distance. The source indexes `self.color_wheel` directly (a `KeyError` for
unknown names), so the embedding returns `none` there. -/
def calculate_color_pair_harmony (color1 color2 : String) : Option ℚ :=
  match color_wheel color1, color_wheel color2 with
  | some hsv1, some hsv2 =>
    let hue_diff := circular_hue_distance hsv1.1 hsv2.1
    some (if (hue_diff - 180).natAbs < 30 then 9/10
          else if hue_diff < 30 then 8/10
          else if (hue_diff - 120).natAbs < 30 then 7/10
          else 5/10)
  | _, _ => none

/-! Outfit assembler (`_categorize_items`, `_build_complete_outfit`). -/

/-- `self.essential_categories['tops']`. -/
def essential_tops : List String :=
  ["shirt", "blouse", "t-shirt", "tank_top", "sweater", "hoodie", "top"]

/-- `self.essential_categories['bottoms']`. -/
def essential_bottoms : List String :=
  ["pants", "jeans", "shorts", "skirt", "dress", "trousers"]

/-- `self.essential_categories['outerwear']`. -/
def essential_outerwear : List String :=
  ["jacket", "coat", "blazer", "cardigan"]

/-- `self.essential_categories['footwear']`. -/
def essential_footwear : List String :=
  ["shoes", "sneakers", "boots", "sandals", "heels"]

/-- The five slot lists built by `_categorize_items`. -/
structure Categorized where
  tops : List ClothingItem
  bottoms : List ClothingItem
  outerwear : List ClothingItem
  footwear : List ClothingItem
  accessories : List ClothingItem
  deriving DecidableEq, Repr

/-- `_categorize_items`: route each item by its lowered category
(`'accessories'` when the category is null), everything unrecognized going
to accessories. -/
def categorize_items (items : List ClothingItem) : Categorized :=
  items.foldl
    (fun cats item =>
      let category := match item.category with
        | some c => str_lower c
        | none => "accessories"
      if essential_tops.contains category then
        {cats with tops := cats.tops ++ [item]}
      else if essential_bottoms.contains category then
        {cats with bottoms := cats.bottoms ++ [item]}
      else if essential_outerwear.contains category then
        {cats with outerwear := cats.outerwear ++ [item]}
      else if essential_footwear.contains category then
        {cats with footwear := cats.footwear ++ [item]}
      else
        {cats with accessories := cats.accessories ++ [item]})
    ⟨[], [], [], [], []⟩

/-- First step of `_build_complete_outfit`: the first top, if any. -/
def outfit_after_top (cat : Categorized) : List ClothingItem :=
  let outfit : List ClothingItem := []
  match cat.tops with
  | [] => outfit
  | t :: _ => outfit ++ [t]

/-- `any(getattr(item, 'category', '').lower() == 'dress' for item in
outfit)`. -/
def has_dress_in (outfit : List ClothingItem) : Bool :=
  outfit.any (fun i =>
    (match i.category with | some c => str_lower c | none => "") = "dress")

/-- Second step of `_build_complete_outfit`: the first bottom, unless a
dress is already in the outfit. -/
def outfit_after_bottoms (cat : Categorized) : List ClothingItem :=
  let outfit := outfit_after_top cat
  match cat.bottoms with
  | [] => outfit
  | b :: _ => if has_dress_in outfit then outfit else outfit ++ [b]

/-- Third step of `_build_complete_outfit`: the first outerwear item,
included only for the `work`/`formal`/`date` occasions. -/
def outfit_after_outerwear (cat : Categorized) (occasion : String) :
    List ClothingItem :=
  let outfit := outfit_after_bottoms cat
  if (["work", "formal", "date"] : List String).contains occasion then
    match cat.outerwear with
    | [] => outfit
    | o :: _ => outfit ++ [o]
  else outfit

/-- Fourth step of `_build_complete_outfit`: the first footwear item. -/
def outfit_after_footwear (cat : Categorized) (occasion : String) :
    List ClothingItem :=
  let outfit := outfit_after_outerwear cat occasion
  match cat.footwear with
  | [] => outfit
  | f :: _ => outfit ++ [f]

/-- `_build_complete_outfit`: deterministic slot filling — first top, first
bottom unless a dress is already chosen, first outerwear for the dress-up
occasions, first footwear, and a first accessory while fewer than 4 items
are chosen. -/
def build_complete_outfit (cat : Categorized) (mood occasion : String) :
    List ClothingItem :=
  let outfit := outfit_after_footwear cat occasion
  match cat.accessories with
  | [] => outfit
  | a :: _ => if outfit.length < 4 then outfit ++ [a] else outfit

/-- The filter cascade of `_create_outfit_recommendation` (lines building
`current_items`): each filter result replaces the running list only when
non-empty, and a final guard restores the original list. -/
def filtered_items (clothing_items : List ClothingItem) (mood occasion : String)
    (weather : Option String) : List ClothingItem :=
  let current := clothing_items
  let occasion_filtered := filter_by_occasion current occasion
  let current := if occasion_filtered.isEmpty then current else occasion_filtered
  let mood_filtered := filter_by_mood current mood
  let current := if mood_filtered.isEmpty then current else mood_filtered
  let weather_filtered := filter_by_weather current weather
  let current := if weather_filtered.isEmpty then current else weather_filtered
  if current.isEmpty then clothing_items else current

/-- The item-selection part of `_create_outfit_recommendation`: filter,
categorize, build, and on an empty build fall back to the first up-to-3
items of the current (filtered) list. -/
def select_outfit_items (clothing_items : List ClothingItem)
    (mood occasion : String) (weather : Option String) : List ClothingItem :=
  let current := filtered_items clothing_items mood occasion weather
  let outfit := build_complete_outfit (categorize_items current) mood occasion
  if outfit.isEmpty then current.take 3 else outfit

/-! Scorer, deduplicator, orchestrator. -/

/-- The item dictionary built in step 4 of `_create_outfit_recommendation`
(`str(...)` renders a null column as `"None"`; the formality is copied from
the metadata with default 2). -/
structure ItemView where
  item_id : String
  category : String
  color : String
  formality_level : Int
  deriving DecidableEq, Repr

/-- Build one item dictionary from a `ClothingItem`. -/
def view_of (item : ClothingItem) : ItemView :=
  { item_id := item.item_id
    category := item.category.getD "None"
    color := item.color.getD "None"
    formality_level := formality_of item }

/-- The fixed neutral set of `_colors_coordinate`. -/
def neutral_colors : List String :=
  ["black", "white", "gray", "grey", "navy", "beige", "brown"]

/-- `_colors_coordinate`: an empty list coordinates; otherwise all colors
neutral, or at most one non-neutral color. -/
def colors_coordinate (colors : List String) : Bool :=
  if colors.isEmpty then true
  else
    let neutral_count := colors.countP (fun c => neutral_colors.contains (str_lower c))
    if neutral_count = colors.length then true
    else colors.length - neutral_count ≤ 1

/-- `_calculate_confidence_score`: 0.6 base, +0.1 for ≥2 distinct
categories, +0.1 more for ≥3, +0.1 for coordinating colors, capped at 1.0
(0.0 for an empty outfit). The distinct-category count is the size of the
Python `set` of category strings, i.e. the deduplicated list length. -/
def calculate_confidence_score (outfit_items : List ItemView)
    (mood occasion : String) : ℚ :=
  if outfit_items.isEmpty then 0
  else
    let base_score : ℚ := 6/10
    let categories := (outfit_items.map ItemView.category).dedup
    let base_score := if 2 ≤ categories.length then base_score + 1/10 else base_score
    let base_score := if 3 ≤ categories.length then base_score + 1/10 else base_score
    let colors := outfit_items.map ItemView.color
    let base_score := if colors_coordinate colors then base_score + 1/10 else base_score
    min base_score 1

/-- A candidate outfit dictionary as the orchestrator handles it. `items`
is `none` for a malformed candidate whose item list cannot be read (the
exception path of `_deduplicate_recommendations`); every candidate the
pipeline itself builds carries `some` items. `final_score` is absent until
`_score_recommendations` assigns it. -/
structure Cand where
  items : Option (List ItemView)
  mood : String
  occasion : String
  confidence_score : ℚ
  method : String
  final_score : Option ℚ
  deriving DecidableEq, Repr

/-- `_create_outfit_recommendation` as a whole: `none` for an empty input,
otherwise the candidate with the selected item views and their confidence
score. -/
def create_outfit_recommendation (clothing_items : List ClothingItem)
    (mood occasion : String) (weather : Option String) : Option Cand :=
  if clothing_items.isEmpty then none
  else
    let selected_items :=
      (select_outfit_items clothing_items mood occasion weather).map view_of
    some
      { items := some selected_items
        mood := mood
        occasion := occasion
        confidence_score := calculate_confidence_score selected_items mood occasion
        method := ""
        final_score := none }

/-- `_create_emergency_recommendation`: the first up-to-3 raw items with a
fixed formality 2 in their views, confidence fixed at 0.5. -/
def create_emergency_recommendation (clothing_items : List ClothingItem)
    (mood occasion : String) : Option Cand :=
  if clothing_items.isEmpty then none
  else
    some
      { items := some ((clothing_items.take 3).map (fun item =>
          { item_id := item.item_id
            category := item.category.getD "None"
            color := item.color.getD "None"
            formality_level := 2 }))
        mood := mood
        occasion := occasion
        confidence_score := 5/10
        method := "emergency_fallback"
        final_score := none }

/-- Python's lexicographic (code-point) order on strings, as a Bool. -/
def char_list_lt : List Char → List Char → Bool
  | [], [] => false
  | [], _ :: _ => true
  | _ :: _, [] => false
  | x :: xs, y :: ys =>
    if x.val.toNat < y.val.toNat then true
    else if x.val.toNat = y.val.toNat then char_list_lt xs ys
    else false

/-- `a ≤ b` in Python string comparison. -/
def py_str_le (a b : String) : Bool := !(char_list_lt b.data a.data)

/-- `sorted([str(item['item_id']) for item in rec['items']])`: the
deduplication signature. Python's `sorted` is a stable comparison sort,
embedded as an insertion sort over the code-point order. -/
def signature_of (items : List ItemView) : List String :=
  (items.map ItemView.item_id).insertionSort (fun a b => py_str_le a b = true)

/-- The loop of `_deduplicate_recommendations`, with the running set of
seen signatures. A malformed candidate (no readable item list) is kept
without touching the seen set. -/
def dedup_go (seen : List (List String)) : List Cand → List Cand
  | [] => []
  | rec :: rest =>
    match rec.items with
    | none => rec :: dedup_go seen rest
    | some its =>
      let combo_signature := signature_of its
      if seen.contains combo_signature then dedup_go seen rest
      else rec :: dedup_go (combo_signature :: seen) rest

/-- `_deduplicate_recommendations`. -/
def deduplicate_recommendations (recommendations : List Cand) : List Cand :=
  dedup_go [] recommendations

/-- The per-candidate score assignment of `_score_recommendations`:
confidence, +0.1 when some outfit color (lowered) is among the preferred
colors, +0.05 for the model-based method tag, capped at 1.0. -/
def score_one (user_preferences : Option (List String)) (rec : Cand) : ℚ :=
  let base_score := rec.confidence_score
  let outfit_colors := (rec.items.getD []).map (fun item => str_lower item.color)
  let base_score :=
    match user_preferences with
    | some preferred_colors =>
      if outfit_colors.any (fun color => preferred_colors.contains color) then
        base_score + 1/10
      else base_score
    | none => base_score
  let base_score := if rec.method = "ai_enhanced" then base_score + 5/100 else base_score
  min base_score 1

/-- `_score_recommendations`: assign every candidate its final score and
sort descending by it (Python's `sorted(..., reverse=True)` is stable). -/
def score_recommendations (recommendations : List Cand)
    (user_preferences : Option (List String)) : List Cand :=
  (recommendations.map (fun rec => {rec with final_score := some (score_one user_preferences rec)})).insertionSort
    (fun a b => (b.final_score.getD 0) ≤ (a.final_score.getD 0))

/-- The success-bounded attempt loop of
`_generate_rule_based_recommendations`: walk the caller-supplied shuffles,
tagging each successful candidate `rule_based`, stopping after `need`
successes. -/
def collect_rule_based (mood occasion : String) (weather : Option String) :
    List (List ClothingItem) → Nat → List Cand
  | _, 0 => []
  | [], _ => []
  | shuffled :: rest, need + 1 =>
    match create_outfit_recommendation shuffled mood occasion weather with
    | some c => {c with method := "rule_based"} :: collect_rule_based mood occasion weather rest need
    | none => collect_rule_based mood occasion weather rest (need + 1)

/-- `generate_outfit_recommendations`, with the database fetch already
performed (`user_clothes`) and the per-attempt random shuffles supplied as
`shuffles` (the loop runs at most `2 × num_recommendations` attempts). -/
def generate_outfit_recommendations (user_clothes : List ClothingItem)
    (shuffles : List (List ClothingItem)) (mood occasion : String)
    (weather : Option String) (user_preferences : Option (List String))
    (num_recommendations : Nat) : List Cand :=
  if user_clothes.isEmpty then []
  else
    let recommendations :=
      collect_rule_based mood occasion weather
        (shuffles.take (num_recommendations * 2)) num_recommendations
    let recommendations :=
      if recommendations.isEmpty then
        match create_emergency_recommendation user_clothes mood occasion with
        | some e => [e]
        | none => []
      else recommendations
    let unique_recommendations := deduplicate_recommendations recommendations
    let scored := score_recommendations unique_recommendations user_preferences
    scored.take num_recommendations

/-! Fixed sample items used by concrete theorems below. -/

/-- A plain shirt item. -/
def shirt_item : ClothingItem := ⟨"t1", some "shirt", some "red", some 1⟩

/-- A shorts item (category in the cold-weather avoid list). -/
def shorts_item : ClothingItem := ⟨"s1", some "shorts", some "blue", some 1⟩

/-- A jacket item (outerwear slot). -/
def jacket_item : ClothingItem := ⟨"j1", some "jacket", some "blue", some 2⟩

/-- A coat item (hot-weather avoided category). -/
def coat_item : ClothingItem := ⟨"c1", some "coat", some "black", some 2⟩

/-- The scenario top: black, formality 3. -/
def scenario_top : ClothingItem := ⟨"i1", some "top", some "black", some 3⟩

/-- The scenario bottom: black, formality 3. -/
def scenario_bottom : ClothingItem := ⟨"i2", some "bottom", some "black", some 3⟩

/-- The scenario shoes: black, formality 2. -/
def scenario_shoes : ClothingItem := ⟨"i3", some "shoes", some "black", some 2⟩

/-- The fail-soft fallback `filtered if filtered else items` never empties a
non-empty input. -/
lemma fallback_ne_nil {α : Type} {items : List α} (l : List α) (h : items ≠ []) :
    (if l.isEmpty then items else l) ≠ [] := by
  cases l with
  | nil => simpa using h
  | cons a t => simp

/-- C1. Fail-soft filter invariant: on a non-empty item list each of the
three filters returns a non-empty list, and whenever a filter's own
criterion (its filtering loop) eliminates every item, the filter returns
its input unchanged. -/
theorem c1_filters_fail_soft (items : List ClothingItem)
    (occasion mood : String) (weather : Option String) (h : items ≠ []) :
    (filter_by_occasion items occasion ≠ [] ∧
      filter_by_mood items mood ≠ [] ∧
      filter_by_weather items weather ≠ []) ∧
    ((∀ req, occasion_requirements occasion = some req →
        items.filter (occasion_keep req) = [] →
        filter_by_occasion items occasion = items) ∧
      (∀ ms, mood_style_mapping mood = some ms →
        items.filter (mood_keep ms) = [] →
        filter_by_mood items mood = items) ∧
      (∀ adj, weather_adjustments (weather_condition weather) = some adj →
        items.foldl (weather_filter_step adj) [] = [] →
        filter_by_weather items weather = items)) := by
  refine ⟨⟨?_, ?_, ?_⟩, ?_, ?_, ?_⟩
  · unfold filter_by_occasion
    cases occasion_requirements occasion with
    | none => exact h
    | some req => exact fallback_ne_nil _ h
  · unfold filter_by_mood
    cases mood_style_mapping mood with
    | none => exact h
    | some ms => exact fallback_ne_nil _ h
  · unfold filter_by_weather
    cases weather_adjustments (weather_condition weather) with
    | none => exact h
    | some adj =>
      dsimp only
      split
      · exact h
      · exact fallback_ne_nil _ h
  · intro req hreq hfilt
    unfold filter_by_occasion
    rw [hreq]
    simp [hfilt]
  · intro ms hms hfilt
    unfold filter_by_mood
    rw [hms]
    simp [hfilt]
  · intro adj hadj hfold
    unfold filter_by_weather
    rw [hadj]
    dsimp only
    split
    · rfl
    · simp [hfold]

/-- Witness for C1 at a concrete one-item list and the `work` occasion. -/
theorem c1_witness :
    ([shirt_item] : List ClothingItem) ≠ [] ∧
      filter_by_occasion [shirt_item] "work" ≠ [] :=
  ⟨by simp, (c1_filters_fail_soft [shirt_item] "work" "confident"
    (some "mild") (by simp)).1.1⟩

/-- C2 counterexample. At circular hue distance exactly 150 (green and
purple) the code scores 0.5, not the 0.9 the claim's closed interval
`[150,180]` demands; at distance exactly 90 (red and purple) it scores
0.5, not the claimed 0.7. -/
theorem c2_boundary_counterexample :
    color_wheel "green" = some (120, 100, 100) ∧
    color_wheel "purple" = some (270, 100, 100) ∧
    color_wheel "red" = some (0, 100, 100) ∧
    circular_hue_distance 120 270 = 150 ∧
    circular_hue_distance 0 270 = 90 ∧
    calculate_color_pair_harmony "green" "purple" = some (1/2) ∧
    calculate_color_pair_harmony "red" "purple" = some (1/2) ∧
    ((1 : ℚ)/2 ≠ 9/10) ∧ ((1 : ℚ)/2 ≠ 7/10) := by
  have hg : color_wheel "green" = some (120, 100, 100) := by decide
  have hp : color_wheel "purple" = some (270, 100, 100) := by decide
  have hr : color_wheel "red" = some (0, 100, 100) := by decide
  have hd1 : circular_hue_distance 120 270 = 150 := by decide
  have hd2 : circular_hue_distance 0 270 = 90 := by decide
  refine ⟨hg, hp, hr, hd1, hd2, ?_, ?_, by norm_num, by norm_num⟩
  · unfold calculate_color_pair_harmony
    rw [hg, hp]
    dsimp only
    rw [hd1, if_neg (by decide), if_neg (by decide), if_neg (by decide)]
    norm_num
  · unfold calculate_color_pair_harmony
    rw [hr, hp]
    dsimp only
    rw [hd2, if_neg (by decide), if_neg (by decide), if_neg (by decide)]
    norm_num

/-- A successful association-list lookup returns the value of some entry. -/
lemma lookup_mem {α β : Type} [BEq α] (l : List (α × β)) (a : α) (b : β)
    (h : l.lookup a = some b) : ∃ p ∈ l, p.2 = b := by
  induction l with
  | nil => simp [List.lookup] at h
  | cons x xs ih =>
    obtain ⟨k, v⟩ := x
    simp only [List.lookup] at h
    split at h
    · exact ⟨(k, v), List.mem_cons_self _ _, Option.some.inj h⟩
    · obtain ⟨p, hp, he⟩ := ih h
      exact ⟨p, List.mem_cons_of_mem _ hp, he⟩

lemma color_wheel_hue_le (c : String) (hsv : Nat × Nat × Nat)
    (h : color_wheel c = some hsv) : hsv.1 ≤ 330 := by
  obtain ⟨p, hp, he⟩ := lookup_mem _ _ _ h
  have hall : ∀ q ∈ color_wheel_table, q.2.1 ≤ 330 := by decide
  rw [← he]
  exact hall p hp

/-- The folded hue distance lies in `[0, 180]` for wheel hues. -/
lemma circular_hue_distance_bounds (a b : Nat) (ha : a ≤ 330) (hb : b ≤ 330) :
    0 ≤ circular_hue_distance a b ∧ circular_hue_distance a b ≤ 180 := by
  simp only [circular_hue_distance]
  split <;> omega

/-- C2 as amended: for two known wheel colors the pairwise harmony score is
0.9 for circular hue distance in the half-open interval (150,180], 0.8
below 30, 0.7 strictly between 90 and 150, and 0.5 otherwise (all three
comparisons of the source are strict). -/
theorem c2_pair_harmony_amended (c1 c2 : String) (hsv1 hsv2 : Nat × Nat × Nat)
    (h1 : color_wheel c1 = some hsv1) (h2 : color_wheel c2 = some hsv2) :
    calculate_color_pair_harmony c1 c2 =
      some (if 150 < circular_hue_distance hsv1.1 hsv2.1 ∧
              circular_hue_distance hsv1.1 hsv2.1 ≤ 180 then 9/10
        else if circular_hue_distance hsv1.1 hsv2.1 < 30 then 8/10
        else if 90 < circular_hue_distance hsv1.1 hsv2.1 ∧
              circular_hue_distance hsv1.1 hsv2.1 < 150 then 7/10
        else 5/10) := by
  have hb1 := color_wheel_hue_le c1 hsv1 h1
  have hb2 := color_wheel_hue_le c2 hsv2 h2
  have hd := circular_hue_distance_bounds hsv1.1 hsv2.1 hb1 hb2
  simp only [calculate_color_pair_harmony, h1, h2]
  congr 1
  split_ifs <;> first | rfl | omega

/-- Witness for C2: yellow and blue are 180 degrees apart and score 0.9. -/
theorem c2_witness :
    calculate_color_pair_harmony "yellow" "blue" = some (9/10) := by
  have h := c2_pair_harmony_amended "yellow" "blue" (60, 100, 100)
    (240, 100, 100) (by decide) (by decide)
  have hd : circular_hue_distance 60 240 = 180 := by decide
  rw [h, hd]
  norm_num

/-- C3, evaluated at the failing inputs. Under `cold`, a shorts item is
kept although `shorts` is in the cold avoid list (the filter compares that
list against the item's color, and `cold` has no `avoid_categories` key);
under `hot`, a shorts item is not moved to the front although `shorts` is
in the hot prefer list (the filter only reads `prefer_categories`, and
`hot` only has `prefer`). -/
theorem c3_weather_filter_code_eval :
    filter_by_weather [shorts_item] (some "cold") = [shorts_item] ∧
    filter_by_weather [shirt_item, shorts_item] (some "hot") =
      [shirt_item, shorts_item] ∧
    (weather_adjustments "cold").map WeatherAdjustment.avoid =
      some (some ["shorts", "tank_top"]) ∧
    (weather_adjustments "hot").map WeatherAdjustment.prefer =
      some (some ["shorts", "tank_top"]) := by
  refine ⟨by decide, by decide, by decide, by decide⟩

/-- C4 counterexample. A single-jacket wardrobe under the `casual` occasion
assembles an empty outfit although the outerwear slot is non-empty; and the
fallback then takes the first up-to-3 items of the *filtered* list, not of
the unfiltered collection (under `hot` the coat is filtered away, so the
fallback outfit is `[jacket]`, not the unfiltered prefix
`[jacket, coat]`). -/
theorem c4_assembly_counterexample :
    build_complete_outfit (categorize_items [jacket_item]) "x" "casual" = [] ∧
    (categorize_items [jacket_item]).outerwear = [jacket_item] ∧
    select_outfit_items [jacket_item, coat_item] "x" "casual" (some "hot") =
      [jacket_item] ∧
    [jacket_item, coat_item].take 3 = [jacket_item, coat_item] ∧
    jacket_item ≠ coat_item := by
  refine ⟨by decide, by decide, by decide, by decide, by decide⟩

lemma outfit_after_top_nil_iff (cat : Categorized) :
    outfit_after_top cat = [] ↔ cat.tops = [] := by
  unfold outfit_after_top
  cases h : cat.tops <;> simp

lemma outfit_after_bottoms_nil_iff (cat : Categorized) :
    outfit_after_bottoms cat = [] ↔
      outfit_after_top cat = [] ∧ cat.bottoms = [] := by
  unfold outfit_after_bottoms
  cases h : cat.bottoms with
  | nil => simp
  | cons b l =>
    dsimp only
    split_ifs with hd
    · constructor
      · intro h0
        rw [h0] at hd
        simp [has_dress_in] at hd
      · intro h0
        exact absurd h0.2 (by simp)
    · simp

lemma outfit_after_outerwear_nil_iff (cat : Categorized) (occasion : String) :
    outfit_after_outerwear cat occasion = [] ↔
      outfit_after_bottoms cat = [] ∧
        ((["work", "formal", "date"] : List String).contains occasion = true →
          cat.outerwear = []) := by
  unfold outfit_after_outerwear
  split_ifs with hc
  · cases h : cat.outerwear with
    | nil => simp
    | cons o l =>
      constructor
      · intro h0
        exact absurd h0 (by simp)
      · intro h0
        exact absurd (h0.2 hc) (by simp)
  · rw [eq_false hc]
    simp

lemma outfit_after_footwear_nil_iff (cat : Categorized) (occasion : String) :
    outfit_after_footwear cat occasion = [] ↔
      outfit_after_outerwear cat occasion = [] ∧ cat.footwear = [] := by
  unfold outfit_after_footwear
  cases h : cat.footwear <;> simp

lemma build_nil_iff (cat : Categorized) (mood occasion : String) :
    build_complete_outfit cat mood occasion = [] ↔
      outfit_after_footwear cat occasion = [] ∧ cat.accessories = [] := by
  unfold build_complete_outfit
  cases h : cat.accessories with
  | nil => simp
  | cons a l =>
    dsimp only
    split_ifs with hl
    · simp
    · constructor
      · intro h0
        rw [h0] at hl
        simp at hl
      · intro h0
        exact absurd h0.2 (by simp)

lemma outfit_after_top_len (cat : Categorized) :
    (outfit_after_top cat).length ≤ 1 := by
  unfold outfit_after_top
  cases cat.tops <;> simp

lemma outfit_after_bottoms_len (cat : Categorized) :
    (outfit_after_bottoms cat).length ≤ 2 := by
  unfold outfit_after_bottoms
  have h := outfit_after_top_len cat
  cases cat.bottoms with
  | nil => dsimp only; omega
  | cons b l =>
    dsimp only
    split_ifs
    · omega
    · simp only [List.length_append, List.length_cons, List.length_nil]
      omega

lemma outfit_after_outerwear_len (cat : Categorized) (occasion : String) :
    (outfit_after_outerwear cat occasion).length ≤ 3 := by
  unfold outfit_after_outerwear
  have h := outfit_after_bottoms_len cat
  split_ifs
  · cases cat.outerwear with
    | nil => dsimp only; omega
    | cons o l =>
      dsimp only
      simp only [List.length_append, List.length_cons, List.length_nil]
      omega
  · dsimp only
    omega

lemma outfit_after_footwear_len (cat : Categorized) (occasion : String) :
    (outfit_after_footwear cat occasion).length ≤ 4 := by
  unfold outfit_after_footwear
  have h := outfit_after_outerwear_len cat occasion
  cases cat.footwear with
  | nil => dsimp only; omega
  | cons f l =>
    dsimp only
    simp only [List.length_append, List.length_cons, List.length_nil]
    omega

lemma build_len_le (cat : Categorized) (mood occasion : String) :
    (build_complete_outfit cat mood occasion).length ≤ 5 := by
  unfold build_complete_outfit
  have h := outfit_after_footwear_len cat occasion
  cases cat.accessories with
  | nil => dsimp only; omega
  | cons a l =>
    dsimp only
    split_ifs
    · simp only [List.length_append, List.length_cons, List.length_nil]
      omega
    · omega

/-- C4 as amended: the assembled outfit (at most 5 items) is empty exactly
when the tops, bottoms, footwear and accessories slots are all empty and,
for the dress-up occasions (`work`/`formal`/`date`), the outerwear slot is
empty as well (under any other occasion a populated outerwear slot is
ignored); and when assembly is empty the in-function fallback returns the
first up-to-3 items of the current *filtered* list. -/
theorem c4_assembly_empty_amended (cat : Categorized)
    (clothes : List ClothingItem) (mood occasion : String)
    (weather : Option String) :
    (build_complete_outfit cat mood occasion = [] ↔
      (cat.tops = [] ∧ cat.bottoms = [] ∧ cat.footwear = [] ∧
        cat.accessories = [] ∧
        ((["work", "formal", "date"] : List String).contains occasion = true →
          cat.outerwear = []))) ∧
    (build_complete_outfit cat mood occasion).length ≤ 5 ∧
    (build_complete_outfit
        (categorize_items (filtered_items clothes mood occasion weather))
        mood occasion = [] →
      select_outfit_items clothes mood occasion weather =
        (filtered_items clothes mood occasion weather).take 3) := by
  refine ⟨?_, ?_, ?_⟩
  · rw [build_nil_iff, outfit_after_footwear_nil_iff,
      outfit_after_outerwear_nil_iff, outfit_after_bottoms_nil_iff,
      outfit_after_top_nil_iff]
    tauto
  · exact build_len_le cat mood occasion
  · intro h
    simp [select_outfit_items, h]

/-- Witness for C4 at the jacket/coat wardrobe under `casual` and `hot`:
assembly is empty and the fallback returns the filtered prefix. -/
theorem c4_witness :
    build_complete_outfit
        (categorize_items
          (filtered_items [jacket_item, coat_item] "x" "casual" (some "hot")))
        "x" "casual" = [] ∧
      select_outfit_items [jacket_item, coat_item] "x" "casual" (some "hot") =
        (filtered_items [jacket_item, coat_item] "x" "casual"
          (some "hot")).take 3 :=
  ⟨by decide,
    (c4_assembly_empty_amended ⟨[], [], [], [], []⟩ [jacket_item, coat_item]
      "x" "casual" (some "hot")).2.2 (by decide)⟩

/-- C5. For every non-empty outfit item list the confidence score equals
0.6, plus 0.1 when the items span at least 2 distinct categories, plus a
further 0.1 when they span at least 3, plus 0.1 when the color list
satisfies the coordinate predicate, capped at 1.0 (the distinct-category
count stated through `Finset` cardinality). -/
theorem c5_confidence_formula (outfit_items : List ItemView)
    (mood occasion : String) (h : outfit_items ≠ []) :
    calculate_confidence_score outfit_items mood occasion =
      min ((6 : ℚ)/10
        + (if 2 ≤ (outfit_items.map ItemView.category).toFinset.card
            then 1/10 else 0)
        + (if 3 ≤ (outfit_items.map ItemView.category).toFinset.card
            then 1/10 else 0)
        + (if colors_coordinate (outfit_items.map ItemView.color)
            then 1/10 else 0)) 1 := by
  have hne : outfit_items.isEmpty = false := by
    cases outfit_items with
    | nil => exact absurd rfl h
    | cons a t => rfl
  unfold calculate_confidence_score
  rw [if_neg (by simp [hne])]
  simp only [List.card_toFinset]
  split_ifs <;> norm_num

/-- Witness for C5 at a one-item outfit. -/
theorem c5_witness :
    (([⟨"i1", "top", "black", (3 : Int)⟩] : List ItemView) ≠ []) ∧
      calculate_confidence_score [⟨"i1", "top", "black", (3 : Int)⟩]
          "professional" "work" =
        min ((6 : ℚ)/10
          + (if 2 ≤ (([⟨"i1", "top", "black", (3 : Int)⟩] : List ItemView).map
              ItemView.category).toFinset.card then 1/10 else 0)
          + (if 3 ≤ (([⟨"i1", "top", "black", (3 : Int)⟩] : List ItemView).map
              ItemView.category).toFinset.card then 1/10 else 0)
          + (if colors_coordinate
              (([⟨"i1", "top", "black", (3 : Int)⟩] : List ItemView).map
                ItemView.color) then 1/10 else 0)) 1 :=
  ⟨by simp, c5_confidence_formula [⟨"i1", "top", "black", (3 : Int)⟩]
    "professional" "work" (by simp)⟩

/-- C8. The work/professional/mild scenario: all three items pass the
filter chain unchanged, the assembled outfit contains all three, the
coordinate predicate holds, and the confidence score is 0.9 ≥ 0.8. -/
theorem c8_scenario :
    filtered_items [scenario_top, scenario_bottom, scenario_shoes]
        "professional" "work" (some "mild") =
      [scenario_top, scenario_bottom, scenario_shoes] ∧
    select_outfit_items [scenario_top, scenario_bottom, scenario_shoes]
        "professional" "work" (some "mild") =
      [scenario_top, scenario_shoes, scenario_bottom] ∧
    colors_coordinate
      (((select_outfit_items [scenario_top, scenario_bottom, scenario_shoes]
          "professional" "work" (some "mild")).map view_of).map
        ItemView.color) = true ∧
    calculate_confidence_score
        ((select_outfit_items [scenario_top, scenario_bottom, scenario_shoes]
          "professional" "work" (some "mild")).map view_of)
        "professional" "work" = 9/10 ∧
    (8 : ℚ)/10 ≤ calculate_confidence_score
        ((select_outfit_items [scenario_top, scenario_bottom, scenario_shoes]
          "professional" "work" (some "mild")).map view_of)
        "professional" "work" := by
  have hsel : select_outfit_items [scenario_top, scenario_bottom,
      scenario_shoes] "professional" "work" (some "mild") =
      [scenario_top, scenario_shoes, scenario_bottom] := by decide
  have hmap : ([scenario_top, scenario_shoes, scenario_bottom].map view_of) =
      [⟨"i1", "top", "black", 3⟩, ⟨"i3", "shoes", "black", 2⟩,
        ⟨"i2", "bottom", "black", 3⟩] := by decide
  have hcard : (([⟨"i1", "top", "black", (3 : Int)⟩,
      ⟨"i3", "shoes", "black", 2⟩, ⟨"i2", "bottom", "black", 3⟩] :
        List ItemView).map ItemView.category).dedup.length = 3 := by decide
  have hcoord : colors_coordinate (([⟨"i1", "top", "black", (3 : Int)⟩,
      ⟨"i3", "shoes", "black", 2⟩, ⟨"i2", "bottom", "black", 3⟩] :
        List ItemView).map ItemView.color) = true := by decide
  have hconf : calculate_confidence_score
      ((select_outfit_items [scenario_top, scenario_bottom, scenario_shoes]
        "professional" "work" (some "mild")).map view_of)
      "professional" "work" = 9/10 := by
    rw [hsel, hmap]
    unfold calculate_confidence_score
    rw [if_neg (by simp)]
    dsimp only
    rw [hcard, hcoord]
    norm_num
  refine ⟨by decide, hsel, ?_, hconf, by rw [hconf]; norm_num⟩
  rw [hsel, hmap, hcoord]

/-- C9. An empty wardrobe is a valid terminal outcome: the generator
returns the empty list (and, being a total function of its inputs, raises
nothing). -/
theorem c9_empty_wardrobe (shuffles : List (List ClothingItem))
    (mood occasion : String) (weather : Option String)
    (prefs : Option (List String)) (n : Nat) :
    generate_outfit_recommendations [] shuffles mood occasion weather
      prefs n = [] := by
  unfold generate_outfit_recommendations
  simp

/-- C10. Every non-empty outfit scores confidence at least 0.6, and the
emergency fallback's fixed confidence 0.5 is strictly below every such
rule-based confidence. -/
theorem c10_rule_confidence_dominates_emergency
    (outfit_items : List ItemView) (mood occasion : String)
    (h : outfit_items ≠ []) :
    (6 : ℚ)/10 ≤ calculate_confidence_score outfit_items mood occasion ∧
    ∀ (clothes : List ClothingItem) (m o : String) (e : Cand),
      create_emergency_recommendation clothes m o = some e →
        e.confidence_score = 5/10 ∧
        e.confidence_score <
          calculate_confidence_score outfit_items mood occasion := by
  have hne : outfit_items.isEmpty = false := by
    cases outfit_items with
    | nil => exact absurd rfl h
    | cons a t => rfl
  have hbase : (6 : ℚ)/10 ≤
      calculate_confidence_score outfit_items mood occasion := by
    unfold calculate_confidence_score
    rw [if_neg (by simp [hne])]
    dsimp only
    split_ifs <;> norm_num
  refine ⟨hbase, ?_⟩
  intro clothes m o e he
  have hconf : e.confidence_score = 5/10 := by
    unfold create_emergency_recommendation at he
    split at he
    · exact Option.noConfusion he
    · rw [← Option.some.inj he]
  exact ⟨hconf, by rw [hconf]; linarith⟩

/-- Witness for C10 at a one-item outfit and a one-item wardrobe. -/
theorem c10_witness :
    (([⟨"i9", "hat", "red", (2 : Int)⟩] : List ItemView) ≠ []) ∧
      (6 : ℚ)/10 ≤ calculate_confidence_score
        [⟨"i9", "hat", "red", (2 : Int)⟩] "m" "o" :=
  ⟨by simp, (c10_rule_confidence_dominates_emergency
    [⟨"i9", "hat", "red", (2 : Int)⟩] "m" "o" (by simp)).1⟩

/-- The deduplication contract in the spec's words: a candidate is kept
exactly when its signature cannot be computed (fail-open) or no earlier
candidate of the input has the same signature. -/
def spec_dedup_keep (prior : List Cand) (rec : Cand) : Bool :=
  match rec.items with
  | none => true
  | some its =>
    !(prior.any (fun p =>
      match p.items with
      | some pits => signature_of pits == signature_of its
      | none => false))

/-- Spec-side deduplication: walk the list keeping first occurrences, the
`prior` accumulator holding all candidates already walked. -/
def spec_dedup_go (prior : List Cand) : List Cand → List Cand
  | [] => []
  | rec :: rest =>
    if spec_dedup_keep prior rec then
      rec :: spec_dedup_go (prior ++ [rec]) rest
    else spec_dedup_go (prior ++ [rec]) rest

/-- Spec-side deduplication of a whole candidate list. -/
def spec_deduplicate (recs : List Cand) : List Cand := spec_dedup_go [] recs

lemma dedup_go_eq_spec (l : List Cand) :
    ∀ (seen : List (List String)) (prior : List Cand),
      (∀ s, seen.contains s = true ↔
        ∃ p ∈ prior, ∃ pits, p.items = some pits ∧ signature_of pits = s) →
      dedup_go seen l = spec_dedup_go prior l := by
  induction l with
  | nil => intro seen prior hinv; rfl
  | cons rec rest ih =>
    intro seen prior hinv
    unfold dedup_go spec_dedup_go
    cases hit : rec.items with
    | none =>
      have hkeep : spec_dedup_keep prior rec = true := by
        unfold spec_dedup_keep
        rw [hit]
      simp only [hit, hkeep, if_true]
      congr 1
      apply ih
      intro s
      rw [hinv s]
      constructor
      · rintro ⟨p, hp, pits, hpits, hs⟩
        exact ⟨p, List.mem_append_left _ hp, pits, hpits, hs⟩
      · rintro ⟨p, hp, pits, hpits, hs⟩
        rcases List.mem_append.mp hp with h | h
        · exact ⟨p, h, pits, hpits, hs⟩
        · rw [List.mem_singleton.mp h, hit] at hpits
          exact Option.noConfusion hpits
    | some its =>
      cases hseen : seen.contains (signature_of its) with
      | true =>
        have hkeep : spec_dedup_keep prior rec = false := by
          unfold spec_dedup_keep
          rw [hit]
          obtain ⟨p, hp, pits, hpits, hs⟩ := (hinv _).mp hseen
          simp only [Bool.not_eq_false']
          rw [List.any_eq_true]
          refine ⟨p, hp, ?_⟩
          rw [hpits]
          exact beq_iff_eq.mpr hs
        simp only [hit, hseen, if_true, hkeep, Bool.false_eq_true, if_false]
        apply ih
        intro s
        constructor
        · intro h1
          obtain ⟨p, hp, pits, hpits, hs⟩ := (hinv s).mp h1
          exact ⟨p, List.mem_append_left _ hp, pits, hpits, hs⟩
        · rintro ⟨p, hp, pits, hpits, hs⟩
          rcases List.mem_append.mp hp with h | h
          · exact (hinv s).mpr ⟨p, h, pits, hpits, hs⟩
          · rw [List.mem_singleton.mp h, hit] at hpits
            rw [← hs, ← Option.some.inj hpits]
            exact hseen
      | false =>
        have hkeep : spec_dedup_keep prior rec = true := by
          unfold spec_dedup_keep
          rw [hit]
          simp only [Bool.not_eq_true']
          rw [List.any_eq_false]
          intro p hp
          cases hp2 : p.items with
          | none => simp
          | some pits =>
            simp only [beq_iff_eq]
            intro hs
            have := (hinv (signature_of its)).mpr ⟨p, hp, pits, hp2, hs⟩
            rw [this] at hseen
            exact Bool.noConfusion hseen
        simp only [hit, hseen, Bool.false_eq_true, if_false, hkeep, if_true]
        congr 1
        apply ih
        intro s
        constructor
        · intro h1
          rw [List.contains_cons, Bool.or_eq_true] at h1
          rcases h1 with h | h
          · exact ⟨rec, List.mem_append_right _ (List.mem_singleton_self _),
              its, hit, (beq_iff_eq.mp h).symm⟩
          · obtain ⟨p, hp, pits, hpits, hs⟩ := (hinv s).mp h
            exact ⟨p, List.mem_append_left _ hp, pits, hpits, hs⟩
        · rintro ⟨p, hp, pits, hpits, hs⟩
          rw [List.contains_cons, Bool.or_eq_true]
          rcases List.mem_append.mp hp with h | h
          · exact Or.inr ((hinv s).mpr ⟨p, h, pits, hpits, hs⟩)
          · rw [List.mem_singleton.mp h, hit] at hpits
            rw [← hs, ← Option.some.inj hpits]
            exact Or.inl (beq_self_eq_true _)

lemma dedup_go_sig_not_seen (l : List Cand) :
    ∀ (seen : List (List String)) (r : Cand) (its : List ItemView),
      r ∈ dedup_go seen l → r.items = some its →
      seen.contains (signature_of its) = false := by
  induction l with
  | nil => intro seen r its hr; simp [dedup_go] at hr
  | cons rec rest ih =>
    intro seen r its hr hits
    unfold dedup_go at hr
    cases hit : rec.items with
    | none =>
      simp only [hit] at hr
      rcases List.mem_cons.mp hr with rfl | hr'
      · rw [hits] at hit
        exact Option.noConfusion hit
      · exact ih seen r its hr' hits
    | some its0 =>
      simp only [hit] at hr
      cases hseen : seen.contains (signature_of its0) with
      | true =>
        simp only [hseen, if_true] at hr
        exact ih seen r its hr hits
      | false =>
        simp only [hseen, Bool.false_eq_true, if_false] at hr
        rcases List.mem_cons.mp hr with rfl | hr'
        · rw [hit] at hits
          rw [← Option.some.inj hits]
          exact hseen
        · have h2 := ih _ r its hr' hits
          rw [List.contains_cons, Bool.or_eq_false_iff] at h2
          exact h2.2

lemma dedup_go_pairwise (l : List Cand) :
    ∀ (seen : List (List String)),
      (dedup_go seen l).Pairwise
        (fun a b => ∀ ia ib, a.items = some ia → b.items = some ib →
          signature_of ia ≠ signature_of ib) := by
  induction l with
  | nil => intro seen; simp [dedup_go]
  | cons rec rest ih =>
    intro seen
    unfold dedup_go
    cases hit : rec.items with
    | none =>
      refine List.Pairwise.cons ?_ (ih seen)
      intro b hb ia ib hia hib
      rw [hit] at hia
      exact Option.noConfusion hia
    | some its0 =>
      simp only [hit]
      cases hseen : seen.contains (signature_of its0) with
      | true =>
        rw [if_pos rfl]
        exact ih seen
      | false =>
        rw [if_neg Bool.false_ne_true]
        refine List.Pairwise.cons ?_ (ih _)
        intro b hb ia ib hia hib
        rw [hit] at hia
        rw [← Option.some.inj hia]
        have h2 := dedup_go_sig_not_seen rest _ b ib hb hib
        rw [List.contains_cons, Bool.or_eq_false_iff] at h2
        intro heq
        have h3 := h2.1
        rw [← heq] at h3
        simp at h3

lemma dedup_go_keeps_malformed (l : List Cand) :
    ∀ (seen : List (List String)) (r : Cand),
      r ∈ l → r.items = none → r ∈ dedup_go seen l := by
  induction l with
  | nil => intro seen r hr; simp at hr
  | cons rec rest ih =>
    intro seen r hr hnone
    unfold dedup_go
    rcases List.mem_cons.mp hr with rfl | hr'
    · simp only [hnone]
      exact List.mem_cons_self _ _
    · cases hit : rec.items with
      | none => exact List.mem_cons_of_mem _ (ih seen r hr' hnone)
      | some its0 =>
        cases hseen : seen.contains (signature_of its0) with
        | true =>
          simp only [hseen, if_true]
          exact ih seen r hr' hnone
        | false =>
          simp only [hseen, Bool.false_eq_true, if_false]
          exact List.mem_cons_of_mem _ (ih _ r hr' hnone)

/-- C7. Deduplication keeps exactly the first occurrence of each sorted
item-id signature in input order (it coincides with the spec-side walk),
no two kept candidates with computable signatures share a signature, and
every malformed candidate is kept. -/
theorem c7_deduplication (recs : List Cand) :
    deduplicate_recommendations recs = spec_deduplicate recs ∧
    (deduplicate_recommendations recs).Pairwise
      (fun a b => ∀ ia ib, a.items = some ia → b.items = some ib →
        signature_of ia ≠ signature_of ib) ∧
    ∀ r ∈ recs, r.items = none → r ∈ deduplicate_recommendations recs := by
  refine ⟨dedup_go_eq_spec recs [] [] (by simp), dedup_go_pairwise recs [], ?_⟩
  intro r hr hnone
  exact dedup_go_keeps_malformed recs [] r hr hnone

/-- Candidate with items `a`, `b` (in that order). -/
def cand_ab : Cand :=
  ⟨some [⟨"a", "x", "red", 2⟩, ⟨"b", "y", "blue", 2⟩], "m", "o", 0,
    "rule_based", none⟩

/-- Candidate with the same two items in swapped order. -/
def cand_ba : Cand :=
  ⟨some [⟨"b", "y", "blue", 2⟩, ⟨"a", "x", "red", 2⟩], "m", "o", 0,
    "rule_based", none⟩

/-- A malformed candidate without a readable item list. -/
def cand_bad : Cand := ⟨none, "m", "o", 0, "rule_based", none⟩

/-- Witness for C7 on a list with a duplicated signature and a malformed
candidate. -/
theorem c7_witness :
    cand_bad ∈ ([cand_ab, cand_ba, cand_bad] : List Cand) ∧
    deduplicate_recommendations [cand_ab, cand_ba, cand_bad] =
      spec_deduplicate [cand_ab, cand_ba, cand_bad] ∧
    cand_bad ∈ deduplicate_recommendations [cand_ab, cand_ba, cand_bad] :=
  ⟨by simp, (c7_deduplication [cand_ab, cand_ba, cand_bad]).1,
    (c7_deduplication [cand_ab, cand_ba, cand_bad]).2.2 cand_bad
      (by simp) rfl⟩

lemma confidence_bounds (its : List ItemView) (mood occasion : String) :
    0 ≤ calculate_confidence_score its mood occasion ∧
      calculate_confidence_score its mood occasion ≤ 1 := by
  unfold calculate_confidence_score
  dsimp only
  split_ifs <;> constructor <;> norm_num

lemma create_rec_conf (cl : List ClothingItem) (m o : String)
    (w : Option String) (c : Cand)
    (h : create_outfit_recommendation cl m o w = some c) :
    c.confidence_score =
      calculate_confidence_score ((select_outfit_items cl m o w).map view_of)
        m o := by
  unfold create_outfit_recommendation at h
  split at h
  · exact Option.noConfusion h
  · rw [← Option.some.inj h]

lemma emergency_conf_eq (cl : List ClothingItem) (m o : String) (e : Cand)
    (h : create_emergency_recommendation cl m o = some e) :
    e.confidence_score = 5/10 := by
  unfold create_emergency_recommendation at h
  split at h
  · exact Option.noConfusion h
  · rw [← Option.some.inj h]

lemma collect_conf_bounds (m o : String) (w : Option String) :
    ∀ (shuffles : List (List ClothingItem)) (need : Nat) (r : Cand),
      r ∈ collect_rule_based m o w shuffles need →
      0 ≤ r.confidence_score ∧ r.confidence_score ≤ 1 := by
  intro shuffles
  induction shuffles with
  | nil =>
    intro need r hr
    cases need <;> simp [collect_rule_based] at hr
  | cons s rest ih =>
    intro need r hr
    cases need with
    | zero => simp [collect_rule_based] at hr
    | succ k =>
      unfold collect_rule_based at hr
      cases hc : create_outfit_recommendation s m o w with
      | none =>
        simp only [hc] at hr
        exact ih (k + 1) r hr
      | some c =>
        simp only [hc] at hr
        rcases List.mem_cons.mp hr with rfl | hr'
        · have hcc := create_rec_conf s m o w c hc
          have hb := confidence_bounds ((select_outfit_items s m o w).map
            view_of) m o
          constructor
          · show (0 : ℚ) ≤ c.confidence_score
            rw [hcc]
            exact hb.1
          · show c.confidence_score ≤ 1
            rw [hcc]
            exact hb.2
        · exact ih k r hr'

lemma dedup_go_subset (l : List Cand) :
    ∀ (seen : List (List String)) (r : Cand), r ∈ dedup_go seen l → r ∈ l := by
  induction l with
  | nil => intro seen r hr; simp [dedup_go] at hr
  | cons rec rest ih =>
    intro seen r hr
    unfold dedup_go at hr
    cases hit : rec.items with
    | none =>
      simp only [hit] at hr
      rcases List.mem_cons.mp hr with rfl | hr'
      · exact List.mem_cons_self _ _
      · exact List.mem_cons_of_mem _ (ih seen r hr')
    | some its0 =>
      simp only [hit] at hr
      cases hseen : seen.contains (signature_of its0) with
      | true =>
        rw [hseen, if_pos rfl] at hr
        exact List.mem_cons_of_mem _ (ih seen r hr)
      | false =>
        rw [hseen, if_neg Bool.false_ne_true] at hr
        rcases List.mem_cons.mp hr with rfl | hr'
        · exact List.mem_cons_self _ _
        · exact List.mem_cons_of_mem _ (ih _ r hr')

lemma score_mem (recs : List Cand) (prefs : Option (List String)) (r : Cand)
    (hr : r ∈ score_recommendations recs prefs) :
    ∃ r0 ∈ recs, r = {r0 with final_score := some (score_one prefs r0)} := by
  unfold score_recommendations at hr
  rw [List.mem_insertionSort] at hr
  obtain ⟨r0, hr0, he⟩ := List.mem_map.mp hr
  exact ⟨r0, hr0, he.symm⟩

lemma score_one_bounds (prefs : Option (List String)) (r : Cand)
    (h : 0 ≤ r.confidence_score) :
    0 ≤ score_one prefs r ∧ score_one prefs r ≤ 1 := by
  unfold score_one
  dsimp only
  refine ⟨le_min ?_ zero_le_one, min_le_right _ _⟩
  cases prefs <;> dsimp only <;> split_ifs <;> linarith

/-- C6. Scores stay in the unit interval: the confidence score of any item
list (empty included) lies in `[0,1]`, and every candidate the pipeline
returns carries a confidence score and an assigned final score in
`[0,1]`. -/
theorem c6_scores_within_unit_interval :
    (∀ (its : List ItemView) (mood occasion : String),
      0 ≤ calculate_confidence_score its mood occasion ∧
        calculate_confidence_score its mood occasion ≤ 1) ∧
    ∀ (user_clothes : List ClothingItem)
      (shuffles : List (List ClothingItem)) (mood occasion : String)
      (weather : Option String) (prefs : Option (List String)) (n : Nat)
      (r : Cand),
      r ∈ generate_outfit_recommendations user_clothes shuffles mood
          occasion weather prefs n →
        (0 ≤ r.confidence_score ∧ r.confidence_score ≤ 1) ∧
        ∃ f, r.final_score = some f ∧ 0 ≤ f ∧ f ≤ 1 := by
  refine ⟨fun its m o => confidence_bounds its m o, ?_⟩
  intro uc shuffles mood occ weather prefs n r hr
  unfold generate_outfit_recommendations at hr
  split at hr
  · simp at hr
  · have hr' := List.mem_of_mem_take hr
    obtain ⟨r0, hr0, rfl⟩ := score_mem _ _ _ hr'
    have hr1 := dedup_go_subset _ [] r0 hr0
    have hconf : 0 ≤ r0.confidence_score ∧ r0.confidence_score ≤ 1 := by
      by_cases hE : (collect_rule_based mood occ weather
          (shuffles.take (n * 2)) n).isEmpty = true
      · rw [if_pos hE] at hr1
        cases hem : create_emergency_recommendation uc mood occ with
        | none => simp only [hem] at hr1; simp at hr1
        | some e =>
          simp only [hem] at hr1
          have he : r0 = e := by simpa using hr1
          subst he
          rw [emergency_conf_eq uc mood occ r0 hem]
          norm_num
      · rw [if_neg hE] at hr1
        exact collect_conf_bounds mood occ weather _ n r0 hr1
    have hs := score_one_bounds prefs r0 hconf.1
    exact ⟨hconf, score_one prefs r0, rfl, hs.1, hs.2⟩

/-- The single candidate a one-top wardrobe produces in one attempt. -/
def c6_witness_rec : Cand :=
  { items := some [view_of scenario_top]
    mood := "m"
    occasion := "o"
    confidence_score := calculate_confidence_score [view_of scenario_top]
      "m" "o"
    method := "rule_based"
    final_score := some (score_one none
      { items := some [view_of scenario_top]
        mood := "m"
        occasion := "o"
        confidence_score := calculate_confidence_score [view_of scenario_top]
          "m" "o"
        method := "rule_based"
        final_score := none }) }

/-- Witness for C6 on a concrete one-item pipeline run. -/
theorem c6_witness :
    c6_witness_rec ∈ generate_outfit_recommendations [scenario_top]
        [[scenario_top]] "m" "o" (some "mild") none 1 ∧
      0 ≤ c6_witness_rec.confidence_score ∧
      c6_witness_rec.confidence_score ≤ 1 := by
  have hg : generate_outfit_recommendations [scenario_top] [[scenario_top]]
      "m" "o" (some "mild") none 1 = [c6_witness_rec] := by rfl
  have hm : c6_witness_rec ∈ generate_outfit_recommendations [scenario_top]
      [[scenario_top]] "m" "o" (some "mild") none 1 := by
    rw [hg]
    exact List.mem_singleton_self _
  have h := (c6_scores_within_unit_interval).2 [scenario_top]
    [[scenario_top]] "m" "o" (some "mild") none 1 c6_witness_rec hm
  exact ⟨hm, h.1.1, h.1.2⟩

end StyleRec
